import Mathlib

/-!
Shallow embedding of the mcp-stripe-monetization plugin (TypeScript) in Lean 4,
with theorems settling the frozen claims about its specification.

Source files embedded:
- src/core/plugin.ts                      (StripeMonetizationPlugin hooks)
- src/core/database/manager.ts            (DatabaseManager validation & delegation)
- src/core/database/adapters/sqlite.ts    (SqliteAdapter customer/credit operations)
- src/api/stripe-endpoints.ts             (StripeAPIEndpoints.handleWebhook)
- src/utils/helpers.ts                    (createBasicSetup per-call configuration)

JavaScript conventions used throughout the embedding:
- optional / possibly-undefined values become `Option`;
- JS truthiness on strings (empty string is falsy) and numbers (0 is falsy)
  is modelled explicitly by the `jsOr*` helpers;
- a method that can `throw` returns `Except`;
- `Date` values are epoch milliseconds (`Nat`): `toISOString` followed by
  `new Date(...)` is the identity at millisecond precision.
-/

namespace Monetization

/-- JS `x || null` on an optional string: the empty string is falsy and is
replaced by `null` (here `none`). -/
def jsOrNullStr (x : Option String) : Option String :=
  match x with
  | some s => if s = "" then none else some s
  | none => none

/-- JS `x || null` on an optional number: 0 is falsy and is replaced by `null`. -/
def jsOrNullInt (x : Option Int) : Option Int :=
  match x with
  | some n => if n = 0 then none else some n
  | none => none

/-- JS `x || d` on an optional number: `undefined` and 0 both yield `d`. -/
def jsOrInt (x : Option Int) (d : Int) : Int :=
  match x with
  | some n => if n = 0 then d else n
  | none => d

/-- JS template interpolation of a possibly-undefined number
(`undefined` prints as the string "undefined"). -/
def jsShowOptInt (x : Option Int) : String :=
  match x with
  | some n => toString n
  | none => "undefined"

/-! ## Embedding of src/core/plugin.ts -/

/-- One entry of a tool result's `content` array. The plugin itself only ever
constructs `text` items; `other` stands for any non-text content of the
wrapped tool's result. -/
inductive ContentItem where
  | text (s : String)
  | other (tag : String) (payload : String)
deriving DecidableEq

/-- The `billing` entry the plugin writes into `result._meta`
(plugin.ts lines 185-194 on the normal path, lines 204-210 in the catch). -/
structure BillingMeta where
  charged : Bool
  amount : Option Int
  currency : Option String
  toolName : Option String
  timestamp : Option Nat
  errorMsg : Option String
deriving DecidableEq

/-- A tool call result (`result` field of a `ToolCallResult`): the `isError`
flag, the content array, the non-billing keys of `_meta`, and the `_meta.billing`
entry. -/
structure ToolResult where
  isError : Bool
  content : List ContentItem
  metaOther : List (String × String)
  metaBilling : Option BillingMeta
deriving DecidableEq

/-- The short-circuiting result the plugin returns to refuse a call: plugin.ts
builds `{ result: { isError: true, content: [{type: 'text', text: msg}] } }`
with no `_meta`. -/
def errorTextResult (msg : String) : ToolResult :=
  { isError := true
  , content := [ContentItem.text msg]
  , metaOther := []
  , metaBilling := none }

/-- Result of `authenticateUser` (plugin.ts lines 288-301). -/
structure AuthResult where
  authenticated : Bool
  userId : Option String
deriving DecidableEq

/-- Result of `checkRateLimit` (plugin.ts lines 303-306). -/
structure RateLimitResult where
  exceeded : Bool
  retryAfter : Option Int
deriving DecidableEq

/-- Result of `checkBilling` (plugin.ts lines 308-335). -/
structure BillingCheckResult where
  canProceed : Bool
  amount : Option Int
  message : Option String
deriving DecidableEq

/-- Text of the authentication refusal (plugin.ts line 84). -/
def authRefusalText : String :=
  "Authentication required. Please provide valid credentials."

/-- Text of the rate-limit refusal (plugin.ts line 98). -/
def rateRefusalText (retryAfter : Option Int) : String :=
  "Rate limit exceeded. Try again in " ++ jsShowOptInt retryAfter ++ " seconds."

/-- Default text of the billing refusal (plugin.ts line 112). -/
def billingRefusalDefaultText : String :=
  "Payment required to use this tool."

/-- Text returned when the billing system errored (plugin.ts line 146). -/
def billingUnavailableText : String :=
  "Billing system temporarily unavailable. Please try again later."

/-- Message of the error thrown when the plugin is uninitialized
(plugin.ts line 72, thrown outside the try/catch). -/
def pluginNotInitializedText : String :=
  "Stripe Monetization Plugin not initialized"

/-- The catch branch of `beforeToolCall` (plugin.ts lines 132-150): in the
`development` environment the call proceeds (returns `undefined`); otherwise a
blocking error result is returned. -/
def failClosed (environment : Option String) : Option ToolResult :=
  if environment = some "development" then none
  else some (errorTextResult billingUnavailableText)

/-- `StripeMonetizationPlugin.beforeToolCall` (plugin.ts lines 70-151).
The three awaited helper calls (`authenticateUser`, `checkRateLimit`,
`checkBilling`) are passed in as parameters, each an `Except` so that a
helper that throws is representable; the try/catch around them is the code's.
`none` in the result models returning `undefined` (the tool proceeds);
`some r` models returning a short-circuiting `ToolCallResult`; the outer
`Except.error` models the not-initialized throw, which happens before the
try block and therefore propagates. -/
def beforeToolCall (initialized : Bool) (environment : Option String)
    (auth : Except Unit AuthResult) (rate : Except Unit RateLimitResult)
    (billing : Except Unit BillingCheckResult) :
    Except String (Option ToolResult) :=
  if !initialized then Except.error pluginNotInitializedText
  else
    match auth with
    | Except.error _ => Except.ok (failClosed environment)
    | Except.ok a =>
      if !a.authenticated then Except.ok (some (errorTextResult authRefusalText))
      else
        match rate with
        | Except.error _ => Except.ok (failClosed environment)
        | Except.ok r =>
          if r.exceeded then
            Except.ok (some (errorTextResult (rateRefusalText r.retryAfter)))
          else
            match billing with
            | Except.error _ => Except.ok (failClosed environment)
            | Except.ok b =>
              if !b.canProceed then
                Except.ok (some (errorTextResult (b.message.getD billingRefusalDefaultText)))
              else
                Except.ok none

/-- `StripeMonetizationPlugin.checkBilling` (plugin.ts lines 308-335): a mock
switch on `this.config.billingModel` that ignores every pricing option.
`none` models an undefined billing model (JS `switch` falls to `default`). -/
def checkBilling (billingModel : Option String) : BillingCheckResult :=
  match billingModel with
  | some m =>
    if m = "per-call" then { canProceed := true, amount := some 100, message := none }
    else if m = "subscription" then { canProceed := true, amount := some 0, message := none }
    else if m = "freemium" then { canProceed := true, amount := some 0, message := none }
    else { canProceed := true, amount := some 100, message := none }
  | none => { canProceed := true, amount := some 100, message := none }

/-- The `billing` metadata `beforeToolCall` attaches to the context
(plugin.ts lines 119-127), as read back by `afterToolCall`. -/
structure BillingData where
  userId : String
  amount : Option Int
  billingModel : Option String
deriving DecidableEq

/-- The argument `afterToolCall` passes to `recordUsage` (plugin.ts 166-172),
minus the wall-clock timestamp. -/
structure UsageWrite where
  userId : String
  toolName : String
  amount : Option Int
  success : Bool
deriving DecidableEq

/-- The argument `afterToolCall` passes to `processPayment` (plugin.ts 176-181). -/
structure PaymentWrite where
  userId : String
  amount : Option Int
  toolName : String
deriving DecidableEq

/-- Observable outcome of one `afterToolCall` invocation: the returned tool
result, the usage record written (if `recordUsage` was reached and did not
throw) and the payment processed (if `processPayment` was reached and did
not throw). -/
structure AfterOutput where
  result : ToolResult
  usageWritten : Option UsageWrite
  paymentProcessed : Option PaymentWrite
deriving DecidableEq

/-- The `_meta.billing` value written on the normal path (plugin.ts 185-194). -/
def successBillingMeta (charged : Bool) (amount : Option Int) (toolName : String)
    (ts : Nat) : BillingMeta :=
  { charged := charged
  , amount := amount
  , currency := some "usd"
  , toolName := some toolName
  , timestamp := some ts
  , errorMsg := none }

/-- The `_meta.billing` value written in the catch branch (plugin.ts 204-210). -/
def caughtBillingMeta : BillingMeta :=
  { charged := false
  , amount := none
  , currency := none
  , toolName := none
  , timestamp := none
  , errorMsg := some "Billing processing failed" }

/-- The spread `result._meta = { ...result._meta, billing: m }`: every other
`_meta` key is preserved and only `billing` is replaced. -/
def setBillingMeta (r : ToolResult) (m : BillingMeta) : ToolResult :=
  { r with metaBilling := some m }

/-- `StripeMonetizationPlugin.afterToolCall` (plugin.ts lines 156-214).
`billingData` is `context.metadata?.billing`; `recordThrows` / `processThrows`
say whether the awaited `recordUsage` / `processPayment` calls throw (the
shipped mocks never do, but the catch branch exists for when they would).
`ts` is the wall clock read by `new Date()`. -/
def afterToolCall (initialized : Bool) (billingData : Option BillingData)
    (toolName : String) (ts : Nat) (recordThrows processThrows : Bool)
    (result : ToolResult) : AfterOutput :=
  if !initialized then { result := result, usageWritten := none, paymentProcessed := none }
  else
    match billingData with
    | none => { result := result, usageWritten := none, paymentProcessed := none }
    | some bd =>
      if recordThrows then
        { result := setBillingMeta result caughtBillingMeta
        , usageWritten := none
        , paymentProcessed := none }
      else
        let usage : UsageWrite :=
          { userId := bd.userId, toolName := toolName, amount := bd.amount
          , success := !result.isError }
        if !result.isError then
          if processThrows then
            { result := setBillingMeta result caughtBillingMeta
            , usageWritten := some usage
            , paymentProcessed := none }
          else
            { result := setBillingMeta result
                (successBillingMeta (!result.isError) bd.amount toolName ts)
            , usageWritten := some usage
            , paymentProcessed := some
                { userId := bd.userId, amount := bd.amount, toolName := toolName } }
        else
          { result := setBillingMeta result
              (successBillingMeta (!result.isError) bd.amount toolName ts)
          , usageWritten := some usage
          , paymentProcessed := none }

/-! ## Embedding of src/core/database/adapters/sqlite.ts — credits column -/

/-- The `customers` table restricted to the column touched by
`updateCustomerCredits`: an association of `customer_id` to `credits`.
The schema (sqlite.ts line 112) declares `credits INTEGER DEFAULT 0` with
no lower-bound CHECK constraint. -/
abbrev CreditTable : Type := List (String × Int)

/-- `SqliteAdapter.updateCustomerCredits` (sqlite.ts lines 442-457):
`UPDATE customers SET credits = credits + ? WHERE customer_id = ?`.
The signed `creditChange` is applied unconditionally — there is no
balance check, no clamping and no failure branch for insufficient funds. -/
def updateCustomerCredits (table : CreditTable) (customerId : String)
    (creditChange : Int) : CreditTable :=
  table.map (fun p => if p.1 = customerId then (p.1, p.2 + creditChange) else p)

/-- `DatabaseManager.updateCustomerCredits` (manager.ts lines 224-232):
rejects an empty customer id with a ValidationError, otherwise delegates the
signed change to the adapter unchanged. -/
def managerUpdateCustomerCredits (table : CreditTable) (customerId : String)
    (creditChange : Int) : Except String CreditTable :=
  if customerId = "" then Except.error "Customer ID is required"
  else Except.ok (updateCustomerCredits table customerId creditChange)

/-- The credits recorded for a given customer id, if the row exists. -/
def creditsOf (table : CreditTable) (customerId : String) : Option Int :=
  (table.find? (fun p => p.1 = customerId)).map (fun p => p.2)

/-- Apply a whole batch of reservation decrements of `price` each through
`updateCustomerCredits`. Each SQL UPDATE is a single atomic statement, so any
concurrent interleaving of `n` identical decrements is exactly this sequential
fold; none of them can fail or refuse. -/
def applyReservations (table : CreditTable) (customerId : String) (price : Int) :
    Nat → CreditTable
  | 0 => table
  | Nat.succ n => updateCustomerCredits (applyReservations table customerId price n)
      customerId (-price)

/-! ## Embedding of src/core/database/manager.ts — credit transactions -/

/-- Input to `createCreditTransaction` as the validator inspects it
(manager.ts lines 559-589). JS dynamic typing is modelled with `Option`:
`amount = none` stands for a non-number `amount`, `timestamp = none` for a
missing value or one that is not a `Date` instance; an empty string is the
falsy case of `!transaction.customerId` / `!transaction.description` /
`!transaction.type`. -/
structure CreditTxInput where
  customerId : String
  txType : String
  amount : Option Int
  balanceAfter : Option Int
  description : String
  timestamp : Option Nat
deriving DecidableEq

/-- The transaction types `DatabaseManager.validateCreditTransaction` accepts
(manager.ts line 566). -/
def validTxTypes : List String :=
  ["purchase", "consumption", "refund", "bonus", "expiry"]

/-- `DatabaseManager.validateCreditTransaction` (manager.ts lines 559-589):
the accumulated `(field, message)` error list; the method throws a
ValidationError exactly when this list is non-empty. -/
def validateCreditTransactionErrors (t : CreditTxInput) : List (String × String) :=
  (if t.customerId = "" then [("customerId", "Customer ID is required")] else [])
  ++ (if t.txType = "" || !(validTxTypes.contains t.txType) then
        [("type", "Valid transaction type is required")] else [])
  ++ (if t.amount.isNone then [("amount", "Amount must be a number")] else [])
  ++ (match t.balanceAfter with
      | none => [("balanceAfter", "Balance after must be a non-negative number")]
      | some b =>
        if b < 0 then [("balanceAfter", "Balance after must be a non-negative number")]
        else [])
  ++ (if t.description = "" then [("description", "Description is required")] else [])
  ++ (if t.timestamp.isNone then [("timestamp", "Valid timestamp is required")] else [])

/-- `DatabaseManager.createCreditTransaction` (manager.ts lines 353-356):
validation runs first and throws before the storage adapter is touched; only
a valid transaction reaches the adapter. The adapter's observable effect is
modelled as the append-only list of transactions it has been asked to store,
so an error leaves that state unchanged by construction. -/
def createCreditTransaction (stored : List CreditTxInput) (t : CreditTxInput) :
    Except (List (String × String)) (List CreditTxInput) :=
  let errs := validateCreditTransactionErrors t
  if errs = [] then Except.ok (stored ++ [t]) else Except.error errs

/-! ## Embedding of src/core/database/adapters/sqlite.ts — customers -/

/-- The `usage` sub-object of a customer creation input
(all fields optional in the adapter's reading). -/
structure UsageIn where
  totalCalls : Option Int
  currentPeriodCalls : Option Int
  lastCallAt : Option Nat
  totalSpent : Option Int
deriving DecidableEq

/-- The `paymentMethod` sub-object of a customer creation input. -/
structure PaymentMethodIn where
  pmType : String
  last4 : String
  brand : String
  expiryMonth : Option Int
  expiryYear : Option Int
deriving DecidableEq

/-- The argument of `SqliteAdapter.createCustomer` (the customer record minus
`customerId`, `createdAt`, `updatedAt`). `metadata` is the JSON text the
adapter would store (`JSON.parse` after `JSON.stringify` is the identity). -/
structure CustomerInput where
  stripeCustomerId : Option String
  email : String
  name : Option String
  metadata : Option String
  subscriptionStatus : Option String
  planId : Option String
  credits : Option Int
  usage : Option UsageIn
  paymentMethod : Option PaymentMethodIn
  status : String
deriving DecidableEq

/-- One row of the `customers` table as stored by the INSERT in
`SqliteAdapter.createCustomer` (sqlite.ts lines 245-275). -/
structure CustomerRow where
  customerId : String
  stripeCustomerId : Option String
  email : String
  name : Option String
  metadata : Option String
  subscriptionStatus : Option String
  planId : Option String
  credits : Int
  createdAt : Nat
  updatedAt : Nat
  usageTotalCalls : Int
  usageCurrentPeriodCalls : Int
  usageLastCallAt : Option Nat
  usageTotalSpent : Int
  pmType : Option String
  pmLast4 : Option String
  pmBrand : Option String
  pmExpiryMonth : Option Int
  pmExpiryYear : Option Int
  status : String
deriving DecidableEq

/-- The value bindings of the INSERT in `SqliteAdapter.createCustomer`
(sqlite.ts lines 254-274), with the generated uuid `cid` and clock `now`
as parameters. Every `x || null` / `x || 0` of the source appears as the
corresponding `jsOr*` helper. -/
def insertCustomerRow (cid : String) (now : Nat) (c : CustomerInput) : CustomerRow :=
  { customerId := cid
  , stripeCustomerId := jsOrNullStr c.stripeCustomerId
  , email := c.email
  , name := jsOrNullStr c.name
  , metadata := c.metadata
  , subscriptionStatus := jsOrNullStr c.subscriptionStatus
  , planId := jsOrNullStr c.planId
  , credits := jsOrInt c.credits 0
  , createdAt := now
  , updatedAt := now
  , usageTotalCalls := jsOrInt (c.usage.bind (fun u => u.totalCalls)) 0
  , usageCurrentPeriodCalls := jsOrInt (c.usage.bind (fun u => u.currentPeriodCalls)) 0
  , usageLastCallAt := c.usage.bind (fun u => u.lastCallAt)
  , usageTotalSpent := jsOrInt (c.usage.bind (fun u => u.totalSpent)) 0
  , pmType := jsOrNullStr (c.paymentMethod.map (fun p => p.pmType))
  , pmLast4 := jsOrNullStr (c.paymentMethod.map (fun p => p.last4))
  , pmBrand := jsOrNullStr (c.paymentMethod.map (fun p => p.brand))
  , pmExpiryMonth := jsOrNullInt (c.paymentMethod.bind (fun p => p.expiryMonth))
  , pmExpiryYear := jsOrNullInt (c.paymentMethod.bind (fun p => p.expiryYear))
  , status := c.status }

/-- The `usage` sub-object of `mapRowToCustomer`'s output. -/
structure UsageOut where
  totalCalls : Int
  currentPeriodCalls : Int
  lastCallAt : Option Nat
  totalSpent : Int
deriving DecidableEq

/-- The `paymentMethod` sub-object of `mapRowToCustomer`'s output. -/
structure PaymentMethodOut where
  pmType : String
  last4 : Option String
  brand : Option String
  expiryMonth : Option Int
  expiryYear : Option Int
deriving DecidableEq

/-- The customer record `mapRowToCustomer` returns. -/
structure CustomerOut where
  customerId : String
  stripeCustomerId : Option String
  email : String
  name : Option String
  metadata : Option String
  subscriptionStatus : Option String
  planId : Option String
  credits : Int
  createdAt : Nat
  updatedAt : Nat
  usage : UsageOut
  paymentMethod : Option PaymentMethodOut
  status : String
deriving DecidableEq

/-- `SqliteAdapter.mapRowToCustomer` (sqlite.ts lines 748-775). The usage
counters go through `row.x || 0` again; `paymentMethod` is reconstructed only
when the stored `payment_method_type` is truthy. -/
def mapRowToCustomer (row : CustomerRow) : CustomerOut :=
  { customerId := row.customerId
  , stripeCustomerId := row.stripeCustomerId
  , email := row.email
  , name := row.name
  , metadata := row.metadata
  , subscriptionStatus := row.subscriptionStatus
  , planId := row.planId
  , credits := row.credits
  , createdAt := row.createdAt
  , updatedAt := row.updatedAt
  , usage :=
    { totalCalls := jsOrInt (some row.usageTotalCalls) 0
    , currentPeriodCalls := jsOrInt (some row.usageCurrentPeriodCalls) 0
    , lastCallAt := row.usageLastCallAt
    , totalSpent := jsOrInt (some row.usageTotalSpent) 0 }
  , paymentMethod :=
    match row.pmType with
    | none => none
    | some t => some
      { pmType := t
      , last4 := row.pmLast4
      , brand := row.pmBrand
      , expiryMonth := row.pmExpiryMonth
      , expiryYear := row.pmExpiryYear }
  , status := row.status }

/-- `createCustomer` followed by `getCustomer` on the returned id
(sqlite.ts lines 240-291 then 293-308): the INSERT under the fresh uuid key
`cid` followed by `SELECT * WHERE customer_id = cid` yields exactly the
inserted row, which `mapRowToCustomer` then converts. -/
def createThenGetCustomer (cid : String) (now : Nat) (c : CustomerInput) : CustomerOut :=
  mapRowToCustomer (insertCustomerRow cid now c)

/-- Character class `[^\s@]` of the e-mail regex in
`DatabaseManager.validateCustomerData` (manager.ts line 436). -/
def emailCharOk (c : Char) : Bool :=
  !(c = '@') && !c.isWhitespace

/-- The e-mail regex `/^[^\s@]+@[^\s@]+\.[^\s@]+$/` of
`DatabaseManager.validateCustomerData`: one `@` splitting a non-empty local
part from a domain that contains a `.` with non-empty runs around it, no
whitespace or further `@` anywhere. -/
def emailWellFormed (s : String) : Bool :=
  let cs := s.toList
  let localPart := cs.takeWhile (fun c => !(c = '@'))
  let rest := cs.dropWhile (fun c => !(c = '@'))
  match rest with
  | [] => false
  | _at :: domain =>
    !localPart.isEmpty && localPart.all emailCharOk &&
    domain.all emailCharOk &&
    (List.range domain.length).any (fun i =>
      domain.getD i ' ' = '.' && 1 ≤ i && i + 1 < domain.length)

/-- `DatabaseManager.validateCustomerData` (manager.ts lines 431-449): a
customer input passes validation iff its e-mail matches the regex and its
status is one of active/suspended/deleted. -/
def validateCustomerDataOk (c : CustomerInput) : Bool :=
  !(c.email = "") && emailWellFormed c.email &&
  !(c.status = "") && ["active", "suspended", "deleted"].contains c.status

/-! ## Embedding of src/api/stripe-endpoints.ts — handleWebhook -/

/-- The response of `StripeAPIEndpoints.handleWebhook`. -/
structure WebhookResponse where
  received : Bool
  eventType : Option String
  customerId : Option String
  processed : Option Bool
deriving DecidableEq

/-- `StripeAPIEndpoints.handleWebhook` (stripe-endpoints.ts lines 378-393):
the body logs and returns a constant acknowledgement; it reads and writes no
ledger, subscription or webhook-event state whatsoever, so it is the identity
on any state `σ` it is run against. -/
def handleWebhook {σ : Type} (state : σ) (payload : String) (signature : String) :
    WebhookResponse × σ :=
  ( { received := true
    , eventType := some "payment_intent.succeeded"
    , customerId := some "cus_example123"
    , processed := some true }
  , state )

/-! ## Per-call pricing: the specified resolver and the configuration -/

/-- One volume-discount tier of a `PerCallConfig`
(interfaces/config.ts: `volumeDiscounts`). -/
structure VolumeTier where
  threshold : Nat
  discountPercent : Int
deriving DecidableEq

/-- Per-call billing configuration (interfaces/config.ts `PerCallConfig`), as
`createBasicSetup` (utils/helpers.ts lines 579-618) assembles it:
`defaultPrice`, optional `toolPrices`, optional `volumeDiscounts`, and
`minimumCharge` fixed at 50. -/
structure PerCallConfig where
  defaultPrice : Int
  toolPrices : List (String × Int)
  volumeDiscounts : List VolumeTier
  minimumCharge : Option Int
deriving DecidableEq

/-- `createBasicSetup`'s per-call billing section (utils/helpers.ts 587-592):
the caller's prices and discounts with a hard-coded minimum charge of 50. -/
def createBasicSetupBilling (defaultPrice : Int) (toolPrices : List (String × Int))
    (volumeDiscounts : List VolumeTier) : PerCallConfig :=
  { defaultPrice := defaultPrice
  , toolPrices := toolPrices
  , volumeDiscounts := volumeDiscounts
  , minimumCharge := some 50 }

/-- Modelled from the spec (section 4.1, per-call): no code in the repository
resolves a per-call price from the configuration, so this is the claimed
resolver, written from the spec's words — `price = toolPrices[tool] ??
defaultPrice`, then the highest volume-discount tier whose call-count
threshold the account has crossed this billing cycle, then the clamp to the
configured minimum charge. -/
def specPerCallCost (cfg : PerCallConfig) (tool : String) (callsThisCycle : Nat) : Int :=
  let base := ((cfg.toolPrices.lookup tool).getD cfg.defaultPrice)
  let crossed := cfg.volumeDiscounts.filter (fun t => t.threshold ≤ callsThisCycle)
  let highest := crossed.foldl
    (fun acc t =>
      match acc with
      | none => some t
      | some a => if a.threshold ≤ t.threshold then some t else some a)
    none
  let discounted :=
    match highest with
    | none => base
    | some t => base * (100 - t.discountPercent) / 100
  match cfg.minimumCharge with
  | none => discounted
  | some m => max discounted m

/-! ## Concrete inputs used by counterexamples and witnesses -/

/-- A credit transaction of the spec's type `adjustment` with every other
field valid. -/
def adjustmentTx : CreditTxInput :=
  { customerId := "cus_1"
  , txType := "adjustment"
  , amount := some 5
  , balanceAfter := some 10
  , description := "manual adjustment"
  , timestamp := some 1000 }

/-- A credit transaction of type `bonus` with every other field valid. -/
def bonusTx : CreditTxInput :=
  { customerId := "cus_1"
  , txType := "bonus"
  , amount := some 25
  , balanceAfter := some 75
  , description := "signup bonus"
  , timestamp := some 1000 }

/-- A fully supplied, truthy customer creation input. -/
def c9Good : CustomerInput :=
  { stripeCustomerId := some "cus_stripe_1"
  , email := "a@b.co"
  , name := some "Ada"
  , metadata := none
  , subscriptionStatus := none
  , planId := some "plan_pro"
  , credits := some 7
  , usage := some { totalCalls := some 3, currentPeriodCalls := some 2
                  , lastCallAt := some 500, totalSpent := some 40 }
  , paymentMethod := some { pmType := "card", last4 := "4242", brand := "visa"
                          , expiryMonth := some 12, expiryYear := some 2030 }
  , status := "active" }

/-- A customer creation input that passes validation but carries an empty
string as `name`. -/
def c9EmptyName : CustomerInput :=
  { stripeCustomerId := none
  , email := "a@b.co"
  , name := some ""
  , metadata := none
  , subscriptionStatus := none
  , planId := none
  , credits := some 5
  , usage := none
  , paymentMethod := none
  , status := "active" }

/-- A sample tool result carrying a pre-existing `_meta` entry. -/
def sampleResult : ToolResult :=
  { isError := false
  , content := [ContentItem.other ("data") ("payload-1")]
  , metaOther := [("traceId", "abc")]
  , metaBilling := none }

/-- A sample failed tool result. -/
def sampleErrorResult : ToolResult :=
  { isError := true
  , content := [ContentItem.text ("tool blew up")]
  , metaOther := []
  , metaBilling := none }

/-- Sample billing metadata attached by the gate: a resolved price of 100. -/
def sampleBillingData : BillingData :=
  { userId := "user_1", amount := some 100, billingModel := some "per-call" }

/-! ## Helper lemmas -/

theorem jsOrInt_some_zero (n : Int) : jsOrInt (some n) 0 = n := by
  simp only [jsOrInt]
  split
  · omega
  · rfl

theorem jsOrNullStr_of_ne (x : Option String) (h : x ≠ some "") : jsOrNullStr x = x := by
  cases x with
  | none => rfl
  | some s =>
    have hs : ¬ (s = "") := fun he => h (by rw [he])
    simp [jsOrNullStr, hs]

theorem jsOrNullInt_of_ne (x : Option Int) (h : x ≠ some 0) : jsOrNullInt x = x := by
  cases x with
  | none => rfl
  | some n =>
    have hn : ¬ (n = 0) := fun he => h (by rw [he])
    simp [jsOrNullInt, hn]

/-- The validator's error list is empty exactly when every validated condition
holds (with the type set the code actually checks). -/
theorem validate_errors_nil_iff (t : CreditTxInput) :
    validateCreditTransactionErrors t = [] ↔
      (t.customerId ≠ "" ∧ t.txType ∈ validTxTypes ∧
       t.amount.isSome = true ∧ (∃ b, t.balanceAfter = some b ∧ 0 ≤ b) ∧
       t.description ≠ "" ∧ t.timestamp.isSome = true) := by
  obtain ⟨cid, ty, am, ba, de, ts⟩ := t
  simp only [validateCreditTransactionErrors, List.append_eq_nil]
  constructor
  · rintro ⟨⟨⟨⟨⟨h1, h2⟩, h3⟩, h4⟩, h5⟩, h6⟩
    refine ⟨?_, ?_, ?_, ?_, ?_, ?_⟩
    · intro hc
      simp [hc] at h1
    · by_cases hty : ty = ""
      · simp [hty] at h2
      · by_cases hco : validTxTypes.contains ty = true
        · simpa [List.contains] using hco
        · simp at hco
          simp [hco, hty] at h2
    · cases am with
      | none => simp at h3
      | some a => rfl
    · cases ba with
      | none => simp at h4
      | some b =>
        refine ⟨b, rfl, ?_⟩
        by_contra hb
        have hlt : b < 0 := by omega
        simp [hlt] at h4
    · intro hd
      simp [hd] at h5
    · cases ts with
      | none => simp at h6
      | some x => rfl
  · rintro ⟨h1, h2, h3, ⟨b, hb, hb0⟩, h5, h6⟩
    subst hb
    have hty : ¬ (ty = "") := by
      intro he
      rw [he] at h2
      exact absurd h2 (by decide)
    have hblt : ¬ (b < 0) := by omega
    cases am with
    | none => simp at h3
    | some a =>
      cases ts with
      | none => simp at h6
      | some x =>
        refine ⟨⟨⟨⟨⟨?_, ?_⟩, ?_⟩, ?_⟩, ?_⟩, ?_⟩
        · simp [h1]
        · simp [hty, h2]
        · simp
        · simp [hblt]
        · simp [h5]
        · simp

/-! ## Claims -/

/-- Claim C1 (code bug): the spec requires every account's credit balance to
stay non-negative under every sequence of balance mutations, but
`DatabaseManager.updateCustomerCredits` / `SqliteAdapter.updateCustomerCredits`
apply any signed `creditChange` unconditionally (`SET credits = credits + ?`,
no balance check, no CHECK constraint): applying a change of −100 to an
account holding 0 credits is accepted and leaves the balance at −100 < 0. -/
theorem c1_balance_can_go_negative :
    managerUpdateCustomerCredits [("cus_1", 0)] ("cus_1") (-100)
      = Except.ok [("cus_1", -100)] ∧
    creditsOf (updateCustomerCredits [("cus_1", 0)] ("cus_1") (-100)) ("cus_1")
      = some (-100) ∧
    ¬ (0 ≤ (-100 : Int)) :=
  ⟨rfl, rfl, by decide⟩

/-- Claim C2 (counterexample): the refusal returned for a blocked billing
decision is a bare error result whose only payload is the decision's message
text; it carries no required-amount or available-amount information, so two
blocked decisions that differ only in the required amount produce the very
same refusal. -/
theorem c2_refusal_lacks_amounts :
    beforeToolCall true (some "production")
        (Except.ok { authenticated := true, userId := some "user_1" })
        (Except.ok { exceeded := false, retryAfter := none })
        (Except.ok { canProceed := false, amount := some 100
                   , message := some "Insufficient balance" })
      = beforeToolCall true (some "production")
        (Except.ok { authenticated := true, userId := some "user_1" })
        (Except.ok { exceeded := false, retryAfter := none })
        (Except.ok { canProceed := false, amount := some 999999
                   , message := some "Insufficient balance" })
    ∧
    beforeToolCall true (some "production")
        (Except.ok { authenticated := true, userId := some "user_1" })
        (Except.ok { exceeded := false, retryAfter := none })
        (Except.ok { canProceed := false, amount := some 100
                   , message := some "Insufficient balance" })
      = Except.ok (some (errorTextResult ("Insufficient balance"))) :=
  ⟨rfl, rfl⟩

/-- Claim C2 (amended): whenever the billing decision is not `canProceed`,
`beforeToolCall` returns (does not throw) a short-circuiting error result —
never `undefined` — whose single text content is the decision's message or the
default payment-required text; the tool is not executed. The refusal does not
carry the required and available amounts. -/
theorem c2_blocked_returns_refusal (env : Option String) (a : AuthResult)
    (r : RateLimitResult) (b : BillingCheckResult)
    (ha : a.authenticated = true) (hr : r.exceeded = false)
    (hb : b.canProceed = false) :
    beforeToolCall true env (Except.ok a) (Except.ok r) (Except.ok b)
      = Except.ok (some (errorTextResult (b.message.getD billingRefusalDefaultText)))
    ∧ (errorTextResult (b.message.getD billingRefusalDefaultText)).isError = true := by
  constructor
  · simp [beforeToolCall, ha, hr, hb]
  · rfl

/-- Witness for the amended C2 at a concrete blocked decision. -/
theorem c2_blocked_returns_refusal_witness :
    beforeToolCall true (some "production")
        (Except.ok { authenticated := true, userId := some "user_1" })
        (Except.ok { exceeded := false, retryAfter := none })
        (Except.ok { canProceed := false, amount := some 100, message := none })
      = Except.ok (some (errorTextResult billingRefusalDefaultText)) :=
  (c2_blocked_returns_refusal (some "production")
      { authenticated := true, userId := some "user_1" }
      { exceeded := false, retryAfter := none }
      { canProceed := false, amount := some 100, message := none }
      rfl rfl rfl).1

/-- Claim C3 (code bug): the spec's per-call resolver is
`toolPrices[tool] ?? defaultPrice` with volume discounts and a minimum-charge
clamp, but `StripeMonetizationPlugin.checkBilling` is a mock that never reads
the pricing configuration: it answers a constant amount of 100 for the
per-call model (and never blocks), while the specified resolver on the
`createBasicSetup` configuration with a tool price of 700 yields 700. -/
theorem c3_check_billing_ignores_configuration :
    (∀ billingModel, (checkBilling billingModel).canProceed = true) ∧
    checkBilling (some "per-call")
      = { canProceed := true, amount := some 100, message := none } ∧
    specPerCallCost (createBasicSetupBilling 50 [("premium-tool", 700)] [])
        ("premium-tool") 0 = 700 ∧
    ¬ ((100 : Int) = 700) := by
  refine ⟨?_, rfl, by decide, by decide⟩
  intro bm
  cases bm with
  | none => rfl
  | some m =>
    simp only [checkBilling]
    split_ifs <;> rfl

/-- Claim C4 (counterexample): for a failed tool result, `afterToolCall`
records a usage entry whose amount is the resolved billing amount (here 100),
not the 0 the claim requires. -/
theorem c4_failed_call_records_amount :
    (afterToolCall true (some sampleBillingData) ("calculate") 0 false false
        sampleErrorResult).usageWritten
      = some { userId := "user_1", toolName := "calculate", amount := some 100
             , success := false } ∧
    ¬ ((some (100 : Int)) = some (0 : Int)) :=
  ⟨rfl, by decide⟩

/-- Claim C4 (amended): for every completed invocation, `afterToolCall`
writes a usage record with `success = !isError` and with the resolved billing
amount as its cost (also on failure), and processes a payment exactly when
the tool result is not an error. -/
theorem c4_payment_only_on_success (bd : BillingData) (tn : String) (ts : Nat)
    (r : ToolResult) :
    (afterToolCall true (some bd) tn ts false false r).usageWritten
      = some { userId := bd.userId, toolName := tn, amount := bd.amount
             , success := !r.isError } ∧
    (afterToolCall true (some bd) tn ts false false r).paymentProcessed
      = (if r.isError then none
         else some { userId := bd.userId, amount := bd.amount, toolName := tn }) := by
  cases hr : r.isError <;> simp [afterToolCall, hr]

/-- Claim C5: `StripeAPIEndpoints.handleWebhook` acknowledges every delivery
(`received = true`) and applies no mutation to ledger or subscription state at
all, so processing the same webhook event twice leaves the state identical to
processing it once (the idempotence holds degenerately: the handler is a
mock that never mutates state in the first place). -/
theorem c5_handle_webhook_idempotent :
    ∀ (σ : Type) (s : σ) (payload sig payload2 sig2 : String),
      (handleWebhook s payload sig).2 = s ∧
      (handleWebhook ((handleWebhook s payload sig).2) payload2 sig2).2
        = (handleWebhook s payload sig).2 ∧
      (handleWebhook s payload sig).1.received = true := by
  intro σ s payload sig payload2 sig2
  exact ⟨rfl, rfl, rfl⟩

/-- Claim C6: when any of the Billing Gate's pre-invocation checks throws,
`beforeToolCall` catches it and fails closed — it returns the blocking
"billing unavailable" error result — except in the `development` environment,
where it returns `undefined` and lets the call proceed. -/
theorem c6_storage_error_fail_closed (env : Option String)
    (auth : Except Unit AuthResult) (rate : Except Unit RateLimitResult)
    (billing : Except Unit BillingCheckResult)
    (h : auth = Except.error () ∨
         (∃ a, auth = Except.ok a ∧ a.authenticated = true ∧ rate = Except.error ()) ∨
         (∃ a r, auth = Except.ok a ∧ a.authenticated = true ∧ rate = Except.ok r ∧
            r.exceeded = false ∧ billing = Except.error ())) :
    beforeToolCall true env auth rate billing =
      Except.ok (if env = some "development" then none
                 else some (errorTextResult billingUnavailableText)) := by
  rcases h with ha | ⟨a, ha, haa, hr⟩ | ⟨a, r, ha, haa, hr, hre, hb⟩
  · subst ha
    simp [beforeToolCall, failClosed]
  · subst ha; subst hr
    simp [beforeToolCall, failClosed, haa]
  · subst ha; subst hr; subst hb
    simp [beforeToolCall, failClosed, haa, hre]

/-- Witness for C6: a throwing authentication check fails open in
`development` and fails closed in `production`. -/
theorem c6_storage_error_fail_closed_witness :
    beforeToolCall true (some "development") (Except.error ())
        (Except.ok { exceeded := false, retryAfter := none })
        (Except.ok { canProceed := true, amount := none, message := none })
      = Except.ok none ∧
    beforeToolCall true (some "production") (Except.error ())
        (Except.ok { exceeded := false, retryAfter := none })
        (Except.ok { canProceed := true, amount := none, message := none })
      = Except.ok (some (errorTextResult billingUnavailableText)) := by
  constructor
  · exact (c6_storage_error_fail_closed (some "development") (Except.error ())
      (Except.ok { exceeded := false, retryAfter := none })
      (Except.ok { canProceed := true, amount := none, message := none })
      (Or.inl rfl)).trans (by rfl)
  · exact (c6_storage_error_fail_closed (some "production") (Except.error ())
      (Except.ok { exceeded := false, retryAfter := none })
      (Except.ok { canProceed := true, amount := none, message := none })
      (Or.inl rfl)).trans (by rfl)

/-- Claim C7 (code bug): the spec requires N+5 concurrent reservations against
a balance worth N calls to yield exactly N successes and 5 refusals, but the
code's only balance mutation, `updateCustomerCredits`, has no refusal branch
and no balance check, and each UPDATE is one atomic statement, so every
interleaving of 7 identical decrements of 100 against a balance of 200 (N = 2)
is this very sequence: all 7 apply, none is refused, and the balance ends at
−500. -/
theorem c7_reservations_never_refused :
    applyReservations [("cus_1", 200)] ("cus_1") 100 7 = [("cus_1", -500)] ∧
    creditsOf (applyReservations [("cus_1", 200)] ("cus_1") 100 7) ("cus_1")
      = some (-500) ∧
    ((-500 : Int) < 0) :=
  ⟨rfl, rfl, by decide⟩

/-- Claim C8 (amended): `DatabaseManager.createCreditTransaction` accepts a
transaction exactly when its type is one of
purchase/consumption/refund/bonus/expiry (the validator checks `bonus`, not
the claimed `adjustment`) and the remaining fields are valid (numeric amount,
non-negative numeric balanceAfter, non-empty description, Date timestamp,
non-empty customerId); otherwise it throws a ValidationError before the
storage adapter is invoked, and the only successful outcome appends exactly
the given transaction. -/
theorem c8_create_credit_transaction_validation (stored : List CreditTxInput)
    (t : CreditTxInput) :
    (createCreditTransaction stored t = Except.ok (stored ++ [t]) ↔
      (t.customerId ≠ "" ∧ t.txType ∈ validTxTypes ∧
       t.amount.isSome = true ∧ (∃ b, t.balanceAfter = some b ∧ 0 ≤ b) ∧
       t.description ≠ "" ∧ t.timestamp.isSome = true)) ∧
    (∀ l, createCreditTransaction stored t = Except.ok l → l = stored ++ [t]) := by
  constructor
  · rw [← validate_errors_nil_iff]
    unfold createCreditTransaction
    constructor
    · intro h
      by_cases he : validateCreditTransactionErrors t = []
      · exact he
      · simp [he] at h
    · intro he
      simp [he]
  · intro l h
    unfold createCreditTransaction at h
    by_cases he : validateCreditTransactionErrors t = []
    · simp [he] at h
      exact h.symm
    · simp [he] at h

/-- Witness for the amended C8: a `bonus` transaction with valid fields is
accepted and stored. -/
theorem c8_create_credit_transaction_validation_witness :
    createCreditTransaction [] bonusTx = Except.ok [bonusTx] :=
  ((c8_create_credit_transaction_validation [] bonusTx).1).mpr
    ⟨by decide, by decide, rfl, ⟨75, rfl, by decide⟩, by decide, rfl⟩

/-- Claim C8 (counterexample): a transaction of the claimed type `adjustment`
with every other field valid is rejected with a ValidationError — the
validator's type set has `bonus` where the claim has `adjustment`. -/
theorem c8_adjustment_rejected :
    createCreditTransaction [] adjustmentTx
      = Except.error [("type", "Valid transaction type is required")] :=
  rfl

/-- Claim C9 (counterexample): a customer input that passes validation but
supplies the empty string as `name` does not round-trip: the adapter's
`name || null` normalizes it away and `getCustomer` returns no name. -/
theorem c9_empty_name_not_round_tripped :
    validateCustomerDataOk c9EmptyName = true ∧
    c9EmptyName.name = some "" ∧
    (createThenGetCustomer ("uuid-1") 0 c9EmptyName).name = none ∧
    ¬ ((none : Option String) = some "") :=
  ⟨by decide, rfl, rfl, by decide⟩

/-- Claim C9 (amended): `createCustomer` followed by `getCustomer` on the
returned id yields the supplied business fields (email, status, name,
stripeCustomerId, planId, credits, usage counters, payment method) whenever
the supplied optional strings are absent or non-empty and the payment-method
expiry numbers are absent or non-zero — the adapter's `x || null` / `x || 0`
bindings normalize falsy values to their defaults, and the server-assigned id
and timestamps are allowed to differ. -/
theorem c9_create_get_round_trip (cid : String) (now : Nat) (c : CustomerInput)
    (cr : Int) (u : UsageIn) (tc cpc tsp : Int)
    (_hv : validateCustomerDataOk c = true)
    (hname : c.name ≠ some "")
    (hstripe : c.stripeCustomerId ≠ some "")
    (hplan : c.planId ≠ some "")
    (hcr : c.credits = some cr)
    (hu : c.usage = some u)
    (htc : u.totalCalls = some tc)
    (hcpc : u.currentPeriodCalls = some cpc)
    (htsp : u.totalSpent = some tsp) :
    (createThenGetCustomer cid now c).email = c.email ∧
    (createThenGetCustomer cid now c).status = c.status ∧
    (createThenGetCustomer cid now c).name = c.name ∧
    (createThenGetCustomer cid now c).stripeCustomerId = c.stripeCustomerId ∧
    (createThenGetCustomer cid now c).planId = c.planId ∧
    (createThenGetCustomer cid now c).credits = cr ∧
    (createThenGetCustomer cid now c).usage.totalCalls = tc ∧
    (createThenGetCustomer cid now c).usage.currentPeriodCalls = cpc ∧
    (createThenGetCustomer cid now c).usage.lastCallAt = u.lastCallAt ∧
    (createThenGetCustomer cid now c).usage.totalSpent = tsp ∧
    (c.paymentMethod = none → (createThenGetCustomer cid now c).paymentMethod = none) ∧
    (∀ pm, c.paymentMethod = some pm →
      pm.pmType ≠ "" → pm.last4 ≠ "" → pm.brand ≠ "" →
      pm.expiryMonth ≠ some 0 → pm.expiryYear ≠ some 0 →
      (createThenGetCustomer cid now c).paymentMethod
        = some { pmType := pm.pmType, last4 := some pm.last4, brand := some pm.brand
               , expiryMonth := pm.expiryMonth, expiryYear := pm.expiryYear }) := by
  refine ⟨rfl, rfl, ?_, ?_, ?_, ?_, ?_, ?_, ?_, ?_, ?_, ?_⟩
  · exact jsOrNullStr_of_ne c.name hname
  · exact jsOrNullStr_of_ne c.stripeCustomerId hstripe
  · exact jsOrNullStr_of_ne c.planId hplan
  · show jsOrInt c.credits 0 = cr
    rw [hcr]
    exact jsOrInt_some_zero cr
  · simp [createThenGetCustomer, mapRowToCustomer, insertCustomerRow, hu, htc,
      jsOrInt_some_zero]
  · simp [createThenGetCustomer, mapRowToCustomer, insertCustomerRow, hu, hcpc,
      jsOrInt_some_zero]
  · simp [createThenGetCustomer, mapRowToCustomer, insertCustomerRow, hu]
  · simp [createThenGetCustomer, mapRowToCustomer, insertCustomerRow, hu, htsp,
      jsOrInt_some_zero]
  · intro h
    simp [createThenGetCustomer, mapRowToCustomer, insertCustomerRow, h, jsOrNullStr]
  · intro pm hpm h1 h2 h3 h4 h5
    have e1 : jsOrNullStr (some pm.pmType) = some pm.pmType :=
      jsOrNullStr_of_ne (some pm.pmType) (fun he => h1 (Option.some.inj he))
    have e2 : jsOrNullStr (some pm.last4) = some pm.last4 :=
      jsOrNullStr_of_ne (some pm.last4) (fun he => h2 (Option.some.inj he))
    have e3 : jsOrNullStr (some pm.brand) = some pm.brand :=
      jsOrNullStr_of_ne (some pm.brand) (fun he => h3 (Option.some.inj he))
    have e4 : jsOrNullInt pm.expiryMonth = pm.expiryMonth :=
      jsOrNullInt_of_ne pm.expiryMonth h4
    have e5 : jsOrNullInt pm.expiryYear = pm.expiryYear :=
      jsOrNullInt_of_ne pm.expiryYear h5
    simp [createThenGetCustomer, mapRowToCustomer, insertCustomerRow, hpm,
      e1, e2, e3, e4, e5]

/-- Witness for the amended C9 at a fully supplied truthy customer. -/
theorem c9_create_get_round_trip_witness :
    (createThenGetCustomer ("uuid-1") 0 c9Good).name = some "Ada" ∧
    (createThenGetCustomer ("uuid-1") 0 c9Good).credits = 7 ∧
    (createThenGetCustomer ("uuid-1") 0 c9Good).paymentMethod
      = some { pmType := "card", last4 := some "4242", brand := some "visa"
             , expiryMonth := some 12, expiryYear := some 2030 } := by
  have h := c9_create_get_round_trip ("uuid-1") 0 c9Good 7
    { totalCalls := some 3, currentPeriodCalls := some 2
    , lastCallAt := some 500, totalSpent := some 40 } 3 2 40
    (by decide) (by decide) (by decide) (by decide) rfl rfl rfl rfl rfl
  refine ⟨h.2.2.1, h.2.2.2.2.2.1, ?_⟩
  exact h.2.2.2.2.2.2.2.2.2.2.2
    { pmType := "card", last4 := "4242", brand := "visa"
    , expiryMonth := some 12, expiryYear := some 2030 }
    rfl (by decide) (by decide) (by decide) (by decide) (by decide)

/-- Claim C10: `afterToolCall` returns the tool result it was given with at
most `_meta.billing` added or replaced — `isError`, `content` and the other
`_meta` keys are untouched; when the plugin is uninitialized the result is
returned entirely unchanged; and an error thrown by usage recording or
payment processing is caught and surfaced only as the error billing metadata
(charged = false), never propagated. -/
theorem c10_after_tool_call_frame (init : Bool) (bd : Option BillingData)
    (tn : String) (ts : Nat) (rt pt : Bool) (r : ToolResult) :
    (afterToolCall init bd tn ts rt pt r).result.isError = r.isError ∧
    (afterToolCall init bd tn ts rt pt r).result.content = r.content ∧
    (afterToolCall init bd tn ts rt pt r).result.metaOther = r.metaOther ∧
    (init = false →
      afterToolCall init bd tn ts rt pt r
        = { result := r, usageWritten := none, paymentProcessed := none }) ∧
    (init = true → ∀ b, bd = some b →
      (rt = true ∨ (r.isError = false ∧ pt = true)) →
      (afterToolCall init bd tn ts rt pt r).result
        = setBillingMeta r caughtBillingMeta) := by
  cases init with
  | false => simp [afterToolCall]
  | true =>
    cases bd with
    | none => simp [afterToolCall]
    | some b =>
      cases rt with
      | true => simp [afterToolCall, setBillingMeta]
      | false =>
        cases hr : r.isError with
        | true => simp [afterToolCall, setBillingMeta, successBillingMeta, hr]
        | false =>
          cases pt with
          | true => simp [afterToolCall, setBillingMeta, hr]
          | false => simp [afterToolCall, setBillingMeta, successBillingMeta, hr]

/-- Witness for C10: the catch branch surfaces the billing error in `_meta`
only, and an uninitialized plugin passes the result through unchanged. -/
theorem c10_after_tool_call_frame_witness :
    (afterToolCall true (some sampleBillingData) ("t") 0 true false
        sampleResult).result
      = setBillingMeta sampleResult caughtBillingMeta ∧
    afterToolCall false none ("t") 0 false false sampleErrorResult
      = { result := sampleErrorResult, usageWritten := none
        , paymentProcessed := none } := by
  constructor
  · exact (c10_after_tool_call_frame true (some sampleBillingData) ("t") 0 true
      false sampleResult).2.2.2.2 rfl sampleBillingData rfl (Or.inl rfl)
  · exact (c10_after_tool_call_frame false none ("t") 0 false false
      sampleErrorResult).2.2.2.1 rfl

end Monetization
